import Mathlib

/-!
TunnelVision: the simulation state and the tunnelling-probability engine

A shallow embedding of `src/main.js` (class `QuantumTunnelingSimulation`).

* JavaScript numbers are read as elements of a linearly ordered field `α`
  (the rationals when a state is evaluated, the reals when `Math.sqrt` and
  `Math.exp` are involved).  The decimal literals of the source (`0.016`,
  `1.0`, `0.5`) are kept as decimal literals.
* The two functions of the JavaScript `Math` object the source calls are passed
  in as a record `JSMath`; over the reals they are `Real.sqrt` and `Real.exp`.
* The objects of the three.js library are represented by the fields the source
  reads or writes: the uniforms of the wave material, the position of the wave
  mesh, the scale of the barrier mesh, and the number of `renderer.render`
  calls.  A colour is recorded as the last constructor or setter call made on
  it.
-/

namespace TunnelVision

/-- The functions of the JavaScript `Math` object used by `main.js`. -/
structure JSMath (α : Type) where
  sqrt : α → α
  exp : α → α

/-- The value of `this.params` (main.js, lines 40-46). -/
structure Params (α : Type) where
  particleEnergy : α
  barrierHeight : α
  barrierWidth : α
  isAnimating : Bool
  time : α
  deriving DecidableEq, Repr

/-- A three.js colour, as the call that last set it: `new THREE.Color(hex)` or
`setHSL(h, s, l)`. -/
inductive Color (α : Type) where
  | hex (value : Nat)
  | hsl (h s l : α)
  deriving DecidableEq, Repr

/-- The `uniforms` of the wave material (main.js, lines 64-68). -/
structure Uniforms (α : Type) where
  time : α
  color : Color α
  amplitude : α
  deriving DecidableEq, Repr

/-- A three.js `Vector3`. -/
structure Vector3 (α : Type) where
  x : α
  y : α
  z : α
  deriving DecidableEq, Repr

/-- The wave mesh `this.waveFunction`: its material uniforms and its position. -/
structure WaveFunction (α : Type) where
  uniforms : Uniforms α
  position : Vector3 α
  deriving DecidableEq, Repr

/-- The barrier mesh `this.barrier`: its scale. -/
structure Barrier (α : Type) where
  scale : Vector3 α
  deriving DecidableEq, Repr

/-- The state of a `QuantumTunnelingSimulation` object, together with the
number of frames handed to `renderer.render`. -/
structure QuantumTunnelingSimulation (α : Type) where
  barrier : Barrier α
  waveFunction : WaveFunction α
  params : Params α
  framesRendered : Nat
  deriving DecidableEq, Repr

variable {α : Type} [LinearOrderedField α]

/-- Method `createBarrier` (main.js, lines 49-57): a new mesh has scale `(1, 1, 1)`. -/
def createBarrier : Barrier α :=
  { scale := { x := 1, y := 1, z := 1 } }

/-- Method `createWaveFunction` (main.js, lines 59-73): the uniforms are created as
`time = 0`, `color = Color(0x00ffff)`, `amplitude = 1.0`; a new mesh is at the
origin. -/
def createWaveFunction : WaveFunction α :=
  { uniforms := { time := 0, color := Color.hex 0x00ffff, amplitude := 1.0 }
    position := { x := 0, y := 0, z := 0 } }

/-- Method `init` (main.js, lines 16-47): the state at the end of `init()`. -/
def init : QuantumTunnelingSimulation α :=
  { barrier := createBarrier
    waveFunction := createWaveFunction
    params :=
      { particleEnergy := 50
        barrierHeight := 70
        barrierWidth := 20
        isAnimating := true
        time := 0 }
    framesRendered := 0 }

/-- Method `updateSimulation` (main.js, lines 111-115). -/
def updateSimulation (this : QuantumTunnelingSimulation α) : QuantumTunnelingSimulation α :=
  let amplitude := this.params.particleEnergy / 100
  { this with
    waveFunction :=
      { this.waveFunction with
        uniforms := { this.waveFunction.uniforms with amplitude := amplitude } } }

/-- Method `updateBarrier` (main.js, lines 117-124). -/
def updateBarrier (this : QuantumTunnelingSimulation α) : QuantumTunnelingSimulation α :=
  { this with
    barrier :=
      { scale :=
          { x := this.params.barrierWidth / 20
            y := this.params.barrierHeight / 35
            z := 1 } } }

/-- The `input` handler of the energy slider (main.js, lines 78-82); `value` is
the parsed slider value. -/
def onParticleEnergyInput (this : QuantumTunnelingSimulation α) (value : α) :
    QuantumTunnelingSimulation α :=
  updateSimulation { this with params := { this.params with particleEnergy := value } }

/-- The `input` handler of the barrier-height slider (main.js, lines 86-90). -/
def onBarrierHeightInput (this : QuantumTunnelingSimulation α) (value : α) :
    QuantumTunnelingSimulation α :=
  updateBarrier { this with params := { this.params with barrierHeight := value } }

/-- The `input` handler of the barrier-width slider (main.js, lines 94-98). -/
def onBarrierWidthInput (this : QuantumTunnelingSimulation α) (value : α) :
    QuantumTunnelingSimulation α :=
  updateBarrier { this with params := { this.params with barrierWidth := value } }

/-- The `click` handler of the animation toggle (main.js, lines 106-108). -/
def toggleAnimation (this : QuantumTunnelingSimulation α) : QuantumTunnelingSimulation α :=
  { this with params := { this.params with isAnimating := !this.params.isAnimating } }

/-- Method `calculateTunnelingProbability` (main.js, lines 126-137). -/
def calculateTunnelingProbability (Math : JSMath α) (this : QuantumTunnelingSimulation α) : α :=
  let E := this.params.particleEnergy
  let V := this.params.barrierHeight
  let width := this.params.barrierWidth
  if E ≥ V then 1.0
  else
    let kappa := Math.sqrt (2 * (V - E)) / 10
    Math.exp (-2 * kappa * width)

/-- Method `launchParticle` (main.js, lines 139-154). -/
def launchParticle (Math : JSMath α) (this : QuantumTunnelingSimulation α) :
    QuantumTunnelingSimulation α :=
  let probability := calculateTunnelingProbability Math this
  { this with
    waveFunction :=
      { uniforms := { this.waveFunction.uniforms with color := Color.hsl probability 1.0 0.5 }
        position := { this.waveFunction.position with x := -5 } }
    params := { this.params with time := 0 } }

/-- Method `animate` (main.js, lines 156-165): one animation frame.  The call of
`requestAnimationFrame` schedules the next frame, which is the next
application of `animate`. -/
def animate (this : QuantumTunnelingSimulation α) : QuantumTunnelingSimulation α :=
  let this1 :=
    if this.params.isAnimating then
      let time := this.params.time + 0.016
      { this with
        params := { this.params with time := time }
        waveFunction :=
          { this.waveFunction with
            uniforms := { this.waveFunction.uniforms with time := time } } }
    else this
  { this1 with framesRendered := this1.framesRendered + 1 }

/-- The state after `n` consecutive animation frames. -/
def animateN : Nat → QuantumTunnelingSimulation α → QuantumTunnelingSimulation α
  | 0, this => this
  | n + 1, this => animate (animateN n this)

/-- The constructor (main.js, lines 3-14): `init()`, then the registration of
the handlers, then the first call of `animate()`. -/
def constructor : QuantumTunnelingSimulation α :=
  animate init

/-- A state with the given energy, barrier height and barrier width, the other
fields as after `init()`. -/
def withParameters (E V w : α) : QuantumTunnelingSimulation α :=
  { (init : QuantumTunnelingSimulation α) with
    params := { (init : QuantumTunnelingSimulation α).params with
      particleEnergy := E, barrierHeight := V, barrierWidth := w } }

/-! ## Lemmas on one animation frame -/

theorem animate_params_of_running (this : QuantumTunnelingSimulation α)
    (h : this.params.isAnimating = true) :
    (animate this).params = { this.params with time := this.params.time + 0.016 } := by
  simp [animate, h]

theorem animate_uniforms_of_running (this : QuantumTunnelingSimulation α)
    (h : this.params.isAnimating = true) :
    (animate this).waveFunction.uniforms =
      { this.waveFunction.uniforms with time := this.params.time + 0.016 } := by
  simp [animate, h]

theorem animate_of_paused (this : QuantumTunnelingSimulation α)
    (h : this.params.isAnimating = false) :
    animate this = { this with framesRendered := this.framesRendered + 1 } := by
  simp [animate, h]

theorem animate_isAnimating (this : QuantumTunnelingSimulation α) :
    (animate this).params.isAnimating = this.params.isAnimating := by
  unfold animate
  split <;> rfl

theorem animateN_succ (n : Nat) (this : QuantumTunnelingSimulation α) :
    animateN (n + 1) this = animate (animateN n this) :=
  rfl

theorem animateN_isAnimating (n : Nat) (this : QuantumTunnelingSimulation α) :
    (animateN n this).params.isAnimating = this.params.isAnimating := by
  induction n with
  | zero => rfl
  | succ n ih => rw [animateN_succ, animate_isAnimating, ih]

theorem animateN_time_of_running (n : Nat) (this : QuantumTunnelingSimulation α)
    (h : this.params.isAnimating = true) :
    (animateN n this).params.time = this.params.time + (n : α) * 0.016 := by
  induction n with
  | zero => simp [animateN]
  | succ n ih =>
    have hn : (animateN n this).params.isAnimating = true := by
      rw [animateN_isAnimating, h]
    rw [animateN_succ, animate_params_of_running _ hn]
    simp only [ih]
    push_cast
    ring

theorem animateN_of_paused (n : Nat) (this : QuantumTunnelingSimulation α)
    (h : this.params.isAnimating = false) :
    animateN n this = { this with framesRendered := this.framesRendered + n } := by
  induction n with
  | zero => rfl
  | succ n ih =>
    have hn : (animateN n this).params.isAnimating = false := by
      rw [animateN_isAnimating, h]
    rw [animateN_succ, animate_of_paused _ hn, ih]
    simp [Nat.add_assoc]

/-! ## The animation clock -/

/-- C6: from any state with `isAnimating = true` and simulation time `t0`, after
`N` consecutive animation frames the simulation time is `t0 + N * 0.016`, where
`0.016` is the rational `2/125`; from the state after `init()` (time `0`) it is
`N * 0.016`. -/
theorem running_clock_after_N_ticks :
    (∀ (this : QuantumTunnelingSimulation α) (N : Nat),
        this.params.isAnimating = true →
        (animateN N this).params.time = this.params.time + (N : α) * 0.016 ∧
        (animateN N this).params.time = this.params.time + (N : α) * (2 / 125)) ∧
    (∀ N : Nat, (init : QuantumTunnelingSimulation α).params.isAnimating = true ∧
        (animateN N (init : QuantumTunnelingSimulation α)).params.time = (N : α) * 0.016) := by
  have key : ∀ (this : QuantumTunnelingSimulation α) (N : Nat),
      this.params.isAnimating = true →
      (animateN N this).params.time = this.params.time + (N : α) * 0.016 :=
    fun this N h => animateN_time_of_running N this h
  refine ⟨fun this N h => ⟨key this N h, ?_⟩, fun N => ⟨rfl, ?_⟩⟩
  · rw [key this N h]
    norm_num
  · rw [key init N rfl]
    simp [init]

/-- Three frames from the state after `init()`, over the rationals: the time is
`3 * 0.016 = 6/125`. -/
theorem running_clock_after_N_ticks_witness :
    (init : QuantumTunnelingSimulation ℚ).params.isAnimating = true ∧
    (animateN 3 (init : QuantumTunnelingSimulation ℚ)).params.time = 0 + ((3 : Nat) : ℚ) * 0.016 ∧
    (animateN 3 (init : QuantumTunnelingSimulation ℚ)).params.time = 6 / 125 := by
  have h := (running_clock_after_N_ticks.1 (init : QuantumTunnelingSimulation ℚ) 3 rfl)
  refine ⟨rfl, h.1, ?_⟩
  rw [h.2]
  norm_num [init]

/-- C7: from any state with `isAnimating = false`, `N` consecutive animation
frames leave the simulation time, the time uniform, the amplitude uniform and
all parameters unchanged; only the count of rendered frames grows, by `N`. -/
theorem paused_clock_after_N_ticks (this : QuantumTunnelingSimulation α) (N : Nat)
    (h : this.params.isAnimating = false) :
    (animateN N this).params.time = this.params.time ∧
    (animateN N this).waveFunction.uniforms.time = this.waveFunction.uniforms.time ∧
    (animateN N this).waveFunction.uniforms.amplitude = this.waveFunction.uniforms.amplitude ∧
    (animateN N this).params = this.params ∧
    (animateN N this).waveFunction = this.waveFunction ∧
    (animateN N this).barrier = this.barrier ∧
    (animateN N this).framesRendered = this.framesRendered + N := by
  rw [animateN_of_paused N this h]
  exact ⟨rfl, rfl, rfl, rfl, rfl, rfl, rfl⟩

/-- Four frames after pausing the state reached by two running frames, over the
rationals. -/
theorem paused_clock_after_N_ticks_witness :
    (toggleAnimation (animateN 2 (init : QuantumTunnelingSimulation ℚ))).params.isAnimating = false ∧
    (animateN 4 (toggleAnimation (animateN 2 (init : QuantumTunnelingSimulation ℚ)))).params.time =
      (toggleAnimation (animateN 2 (init : QuantumTunnelingSimulation ℚ))).params.time ∧
    (animateN 4 (toggleAnimation (animateN 2 (init : QuantumTunnelingSimulation ℚ)))).framesRendered =
      (toggleAnimation (animateN 2 (init : QuantumTunnelingSimulation ℚ))).framesRendered + 4 := by
  have h := paused_clock_after_N_ticks
    (toggleAnimation (animateN 2 (init : QuantumTunnelingSimulation ℚ))) 4 rfl
  exact ⟨rfl, h.1, h.2.2.2.2.2.2⟩

/-- C9: toggling the animation, taking `k` animation frames and toggling again
gives back the original `isAnimating`; when the original state is running, the
simulation time after that sequence is the original time, and the next frame
gives the original time plus `0.016`. -/
theorem toggle_ticks_toggle (this : QuantumTunnelingSimulation α) (k : Nat) :
    (toggleAnimation (animateN k (toggleAnimation this))).params.isAnimating =
      this.params.isAnimating ∧
    (this.params.isAnimating = true →
      (toggleAnimation (animateN k (toggleAnimation this))).params.time = this.params.time ∧
      (animate (toggleAnimation (animateN k (toggleAnimation this)))).params.time =
        this.params.time + 0.016) := by
  have hflip : (toggleAnimation (animateN k (toggleAnimation this))).params.isAnimating =
      this.params.isAnimating := by
    show (!(animateN k (toggleAnimation this)).params.isAnimating) = this.params.isAnimating
    rw [animateN_isAnimating]
    show (!(!this.params.isAnimating)) = this.params.isAnimating
    exact Bool.not_not _
  refine ⟨hflip, fun h => ?_⟩
  have hpaused : (toggleAnimation this).params.isAnimating = false := by
    show (!this.params.isAnimating) = false
    rw [h]
    rfl
  have htime : (toggleAnimation (animateN k (toggleAnimation this))).params.time =
      this.params.time := by
    rw [animateN_of_paused k _ hpaused]
    rfl
  refine ⟨htime, ?_⟩
  rw [animate_params_of_running _ (hflip.trans h)]
  show (toggleAnimation (animateN k (toggleAnimation this))).params.time + 0.016 = _
  rw [htime]

/-- Pause, five frames, resume, from the state reached by two running frames,
over the rationals. -/
theorem toggle_ticks_toggle_witness :
    (animateN 2 (init : QuantumTunnelingSimulation ℚ)).params.isAnimating = true ∧
    (toggleAnimation (animateN 5 (toggleAnimation
      (animateN 2 (init : QuantumTunnelingSimulation ℚ))))).params.time =
      (animateN 2 (init : QuantumTunnelingSimulation ℚ)).params.time ∧
    (animate (toggleAnimation (animateN 5 (toggleAnimation
      (animateN 2 (init : QuantumTunnelingSimulation ℚ)))))).params.time =
      (animateN 2 (init : QuantumTunnelingSimulation ℚ)).params.time + 0.016 :=
  ⟨rfl, (toggle_ticks_toggle (animateN 2 (init : QuantumTunnelingSimulation ℚ)) 5).2 rfl⟩

/-! ## Launch -/

/-- C8: `launchParticle` sets the wave colour to HSL with hue the tunnelling
probability of the current parameters, saturation `1.0` and lightness `0.5`,
sets the x position of the wave to `-5` and the simulation time to `0`; the
energy, the barrier height and width, `isAnimating` and every other field keep
their values. -/
theorem launchParticle_effect (Math : JSMath α) (this : QuantumTunnelingSimulation α) :
    (launchParticle Math this).waveFunction.uniforms.color =
      Color.hsl (calculateTunnelingProbability Math this) 1.0 0.5 ∧
    (launchParticle Math this).waveFunction.position.x = -5 ∧
    (launchParticle Math this).params.time = 0 ∧
    (launchParticle Math this).params.particleEnergy = this.params.particleEnergy ∧
    (launchParticle Math this).params.barrierHeight = this.params.barrierHeight ∧
    (launchParticle Math this).params.barrierWidth = this.params.barrierWidth ∧
    (launchParticle Math this).params.isAnimating = this.params.isAnimating ∧
    (launchParticle Math this).waveFunction.uniforms.time = this.waveFunction.uniforms.time ∧
    (launchParticle Math this).waveFunction.uniforms.amplitude =
      this.waveFunction.uniforms.amplitude ∧
    (launchParticle Math this).waveFunction.position.y = this.waveFunction.position.y ∧
    (launchParticle Math this).waveFunction.position.z = this.waveFunction.position.z ∧
    (launchParticle Math this).barrier = this.barrier ∧
    (launchParticle Math this).framesRendered = this.framesRendered :=
  ⟨rfl, rfl, rfl, rfl, rfl, rfl, rfl, rfl, rfl, rfl, rfl, rfl, rfl⟩

/-! ## The continuous signals -/

/-- C10, the claim as stated fails: the frame taken from the state after
`init()` is taken in the running state and leaves the amplitude uniform at its
creation value `1.0`, while `particleEnergy / 100` is `0.5`. -/
theorem first_tick_keeps_created_amplitude :
    (init : QuantumTunnelingSimulation ℚ).params.isAnimating = true ∧
    (animate (init : QuantumTunnelingSimulation ℚ)).waveFunction.uniforms.amplitude = 1.0 ∧
    (animate (init : QuantumTunnelingSimulation ℚ)).params.particleEnergy / 100 = 0.5 ∧
    ¬ ((animate (init : QuantumTunnelingSimulation ℚ)).waveFunction.uniforms.amplitude =
        (animate (init : QuantumTunnelingSimulation ℚ)).params.particleEnergy / 100 ∧
       (animate (init : QuantumTunnelingSimulation ℚ)).waveFunction.uniforms.time =
        (animate (init : QuantumTunnelingSimulation ℚ)).params.time) := by
  refine ⟨rfl, rfl, ?_, ?_⟩
  · norm_num [animate, init]
  · norm_num [animate, init, createWaveFunction]

/-- C10, amended: an animation frame taken in the running state sets the time
uniform to the simulation time and leaves the amplitude uniform and the
particle energy as they were, so `amplitude = particleEnergy / 100` holds after
the frame whenever it held before it; the energy-slider handler establishes
that equation. -/
theorem continuous_signals_after_tick (this : QuantumTunnelingSimulation α)
    (h : this.params.isAnimating = true) :
    (animate this).waveFunction.uniforms.time = (animate this).params.time ∧
    (animate this).waveFunction.uniforms.amplitude = this.waveFunction.uniforms.amplitude ∧
    (animate this).params.particleEnergy = this.params.particleEnergy ∧
    (this.waveFunction.uniforms.amplitude = this.params.particleEnergy / 100 →
      (animate this).waveFunction.uniforms.amplitude =
        (animate this).params.particleEnergy / 100) ∧
    (∀ value : α,
      (onParticleEnergyInput this value).waveFunction.uniforms.amplitude =
        (onParticleEnergyInput this value).params.particleEnergy / 100 ∧
      (onParticleEnergyInput this value).params.isAnimating = true ∧
      (animate (onParticleEnergyInput this value)).waveFunction.uniforms.amplitude =
        (animate (onParticleEnergyInput this value)).params.particleEnergy / 100) := by
  have hp := animate_params_of_running this h
  have hu := animate_uniforms_of_running this h
  refine ⟨by rw [hp, hu], by rw [hu], by rw [hp], fun heq => by rw [hp, hu]; exact heq,
    fun value => ⟨rfl, h, ?_⟩⟩
  have hv : (onParticleEnergyInput this value).params.isAnimating = true := h
  rw [animate_params_of_running _ hv, animate_uniforms_of_running _ hv]
  rfl

/-- The frame after moving the energy slider to `50` in the state after
`init()`, over the rationals: the amplitude uniform is `0.5`. -/
theorem continuous_signals_after_tick_witness :
    (onParticleEnergyInput (init : QuantumTunnelingSimulation ℚ) 50).params.isAnimating = true ∧
    (animate (onParticleEnergyInput (init : QuantumTunnelingSimulation ℚ) 50)).waveFunction.uniforms.time =
      (animate (onParticleEnergyInput (init : QuantumTunnelingSimulation ℚ) 50)).params.time ∧
    (animate (onParticleEnergyInput (init : QuantumTunnelingSimulation ℚ) 50)).waveFunction.uniforms.amplitude =
      50 / 100 :=
  ⟨rfl, (continuous_signals_after_tick
      (onParticleEnergyInput (init : QuantumTunnelingSimulation ℚ) 50) rfl).1,
    (continuous_signals_after_tick
      (onParticleEnergyInput (init : QuantumTunnelingSimulation ℚ) 50) rfl).2.1.trans rfl⟩

/-! ## The tunnelling probability -/

theorem calculateTunnelingProbability_of_ge (Math : JSMath α)
    (this : QuantumTunnelingSimulation α)
    (h : this.params.particleEnergy ≥ this.params.barrierHeight) :
    calculateTunnelingProbability Math this = 1.0 := by
  simp only [calculateTunnelingProbability]
  exact if_pos h

theorem calculateTunnelingProbability_of_lt (Math : JSMath α)
    (this : QuantumTunnelingSimulation α)
    (h : this.params.particleEnergy < this.params.barrierHeight) :
    calculateTunnelingProbability Math this =
      Math.exp (-2 * (Math.sqrt (2 * (this.params.barrierHeight - this.params.particleEnergy)) / 10)
        * this.params.barrierWidth) := by
  simp only [calculateTunnelingProbability]
  exact if_neg (not_le.mpr h)

/-- The decay constant `kappa` of the source is never negative over the reals. -/
theorem kappa_nonneg (x : ℝ) : 0 ≤ Real.sqrt x / 10 :=
  div_nonneg (Real.sqrt_nonneg x) (by norm_num)

theorem four_sqrt_forty_gt : (25 : ℝ) < 4 * Real.sqrt 40 := by
  have h : (25 / 4 : ℝ) < Real.sqrt 40 := by
    rw [Real.lt_sqrt (by norm_num)]
    norm_num
  linarith

theorem four_sqrt_forty_lt : 4 * Real.sqrt 40 < (26 : ℝ) := by
  have h : Real.sqrt 40 < (13 / 2 : ℝ) := by
    have hlt : Real.sqrt 40 < Real.sqrt ((13 / 2 : ℝ) ^ 2) :=
      Real.sqrt_lt_sqrt (by norm_num) (by norm_num)
    rwa [Real.sqrt_sq (by norm_num)] at hlt
  linarith

theorem exp_neg_four_sqrt_forty_lt : Real.exp (-4 * Real.sqrt 40) < 1e-10 := by
  have h1 : Real.exp (-4 * Real.sqrt 40) < Real.exp (-25) :=
    Real.exp_lt_exp.mpr (by linarith [four_sqrt_forty_gt])
  have h2 : Real.exp (-25) = ((Real.exp 1) ^ 25)⁻¹ := by
    rw [← Real.exp_nat_mul, ← Real.exp_neg]
    norm_num
  have h3 : (2.7 : ℝ) ^ 25 ≤ (Real.exp 1) ^ 25 :=
    pow_le_pow_left₀ (by norm_num) (by linarith [Real.exp_one_gt_d9]) 25
  have h4 : ((Real.exp 1) ^ 25)⁻¹ ≤ ((2.7 : ℝ) ^ 25)⁻¹ :=
    inv_anti₀ (by positivity) h3
  have h5 : ((2.7 : ℝ) ^ 25)⁻¹ < 1e-10 := by norm_num
  linarith

theorem exp_neg_four_sqrt_forty_gt : 1e-12 < Real.exp (-4 * Real.sqrt 40) := by
  have h1 : Real.exp (-26) < Real.exp (-4 * Real.sqrt 40) :=
    Real.exp_lt_exp.mpr (by linarith [four_sqrt_forty_lt])
  have h2 : Real.exp (-26) = ((Real.exp 1) ^ 26)⁻¹ := by
    rw [← Real.exp_nat_mul, ← Real.exp_neg]
    norm_num
  have h3 : (Real.exp 1) ^ 26 ≤ (2.72 : ℝ) ^ 26 :=
    pow_le_pow_left₀ (Real.exp_pos 1).le (by linarith [Real.exp_one_lt_d9]) 26
  have h4 : ((2.72 : ℝ) ^ 26)⁻¹ ≤ ((Real.exp 1) ^ 26)⁻¹ :=
    inv_anti₀ (by positivity) h3
  have h5 : (1e-12 : ℝ) < ((2.72 : ℝ) ^ 26)⁻¹ := by norm_num
  linarith

/-- C1: when the particle energy is at least the barrier height,
`calculateTunnelingProbability` returns exactly `1.0`, whatever the barrier
width (and whatever `Math.sqrt` and `Math.exp` compute). -/
theorem probability_is_one_at_or_above_barrier (Math : JSMath α)
    (this : QuantumTunnelingSimulation α)
    (h : this.params.particleEnergy ≥ this.params.barrierHeight) :
    calculateTunnelingProbability Math this = 1.0 ∧
    calculateTunnelingProbability Math this = 1 := by
  rw [calculateTunnelingProbability_of_ge Math this h]
  exact ⟨rfl, by norm_num⟩

/-- Over the reals: `E = 80, V = 70` with a negative width, and the boundary
`E = V = 70` with a very large width, both give `1.0`. -/
theorem probability_is_one_at_or_above_barrier_witness :
    ((80 : ℝ) ≥ 70 ∧
      calculateTunnelingProbability ⟨Real.sqrt, Real.exp⟩ (withParameters (80 : ℝ) 70 (-3)) = 1.0) ∧
    ((70 : ℝ) ≥ 70 ∧
      calculateTunnelingProbability ⟨Real.sqrt, Real.exp⟩ (withParameters (70 : ℝ) 70 1000000) = 1.0) :=
  ⟨⟨by norm_num, (probability_is_one_at_or_above_barrier ⟨Real.sqrt, Real.exp⟩
      (withParameters (80 : ℝ) 70 (-3)) (show (80 : ℝ) ≥ 70 by norm_num)).1⟩,
   ⟨le_refl _, (probability_is_one_at_or_above_barrier ⟨Real.sqrt, Real.exp⟩
      (withParameters (70 : ℝ) 70 1000000) (show (70 : ℝ) ≥ 70 from le_refl _)).1⟩⟩

/-- C2: when the particle energy is below the barrier height, over the reals
`calculateTunnelingProbability` returns `exp(-2 * kappa * w)` with
`kappa = sqrt(2 * (V - E)) / 10`, and the argument of the square root is
positive; at `E = 50, V = 70, w = 20` the result is `exp(-4 * sqrt 40)`, which
lies between `1.0e-12` and `1.0e-10`. -/
theorem probability_below_barrier :
    (∀ this : QuantumTunnelingSimulation ℝ,
      this.params.particleEnergy < this.params.barrierHeight →
      0 < 2 * (this.params.barrierHeight - this.params.particleEnergy) ∧
      calculateTunnelingProbability ⟨Real.sqrt, Real.exp⟩ this =
        Real.exp (-2 *
          (Real.sqrt (2 * (this.params.barrierHeight - this.params.particleEnergy)) / 10) *
          this.params.barrierWidth)) ∧
    calculateTunnelingProbability ⟨Real.sqrt, Real.exp⟩ (withParameters (50 : ℝ) 70 20) =
      Real.exp (-4 * Real.sqrt 40) ∧
    1.0e-12 < calculateTunnelingProbability ⟨Real.sqrt, Real.exp⟩ (withParameters (50 : ℝ) 70 20) ∧
    calculateTunnelingProbability ⟨Real.sqrt, Real.exp⟩ (withParameters (50 : ℝ) 70 20) < 1.0e-10 := by
  have hval : calculateTunnelingProbability ⟨Real.sqrt, Real.exp⟩ (withParameters (50 : ℝ) 70 20) =
      Real.exp (-4 * Real.sqrt 40) := by
    rw [calculateTunnelingProbability_of_lt _ _
      (show (withParameters (50 : ℝ) 70 20).params.particleEnergy <
        (withParameters (50 : ℝ) 70 20).params.barrierHeight by
          show (50 : ℝ) < 70
          norm_num)]
    show Real.exp (-2 * (Real.sqrt (2 * (70 - 50)) / 10) * 20) = _
    congr 1
    norm_num
    ring
  refine ⟨fun this h => ⟨by linarith, calculateTunnelingProbability_of_lt _ this h⟩, hval, ?_, ?_⟩
  · rw [hval]
    have := exp_neg_four_sqrt_forty_gt
    norm_num at this ⊢
    exact this
  · rw [hval]
    have := exp_neg_four_sqrt_forty_lt
    norm_num at this ⊢
    exact this

/-- At `E = 50, V = 70, w = 20` the general formula of C2 applies: the argument
of the square root is `40` and the result is `exp(-2 * (sqrt 40 / 10) * 20)`. -/
theorem probability_below_barrier_witness :
    (50 : ℝ) < 70 ∧ (0 : ℝ) < 2 * (70 - 50) ∧
    calculateTunnelingProbability ⟨Real.sqrt, Real.exp⟩ (withParameters (50 : ℝ) 70 20) =
      Real.exp (-2 * (Real.sqrt (2 * (70 - 50)) / 10) * 20) :=
  ⟨by norm_num,
   (probability_below_barrier.1 (withParameters (50 : ℝ) 70 20)
      (show (50 : ℝ) < 70 by norm_num)).1,
   (probability_below_barrier.1 (withParameters (50 : ℝ) 70 20)
      (show (50 : ℝ) < 70 by norm_num)).2⟩

/-- C3: below the barrier, with the energy and the barrier height held fixed,
the probability is non-increasing in the barrier width: `w1 < w2` gives
`p(E, V, w1) ≥ p(E, V, w2)` over the reals. -/
theorem probability_antitone_in_width (this1 this2 : QuantumTunnelingSimulation ℝ)
    (hE : this1.params.particleEnergy = this2.params.particleEnergy)
    (hV : this1.params.barrierHeight = this2.params.barrierHeight)
    (hlt : this1.params.particleEnergy < this1.params.barrierHeight)
    (hw : this1.params.barrierWidth < this2.params.barrierWidth) :
    calculateTunnelingProbability ⟨Real.sqrt, Real.exp⟩ this1 ≥
      calculateTunnelingProbability ⟨Real.sqrt, Real.exp⟩ this2 := by
  have hlt2 : this2.params.particleEnergy < this2.params.barrierHeight := by
    rw [← hE, ← hV]
    exact hlt
  rw [calculateTunnelingProbability_of_lt _ this1 hlt,
    calculateTunnelingProbability_of_lt _ this2 hlt2, ← hE, ← hV]
  show Real.exp _ ≥ Real.exp _
  apply Real.exp_le_exp.mpr
  have hk := kappa_nonneg (2 * (this1.params.barrierHeight - this1.params.particleEnergy))
  nlinarith

/-- Widths `10 < 20` at `E = 50, V = 70`. -/
theorem probability_antitone_in_width_witness :
    (50 : ℝ) < 70 ∧ (10 : ℝ) < 20 ∧
    calculateTunnelingProbability ⟨Real.sqrt, Real.exp⟩ (withParameters (50 : ℝ) 70 10) ≥
      calculateTunnelingProbability ⟨Real.sqrt, Real.exp⟩ (withParameters (50 : ℝ) 70 20) :=
  ⟨by norm_num, by norm_num,
   probability_antitone_in_width (withParameters (50 : ℝ) 70 10) (withParameters (50 : ℝ) 70 20)
     rfl rfl (show (50 : ℝ) < 70 by norm_num) (show (10 : ℝ) < 20 by norm_num)⟩

/-- C4, the claim as stated fails for a negative width: with `V = 2` and
`w = -1`, the energies `0 ≤ 3/2 < 2` give `p(0, 2, -1) = exp(2/5)` and
`p(3/2, 2, -1) = exp(1/5)`, so raising the energy lowers the value. -/
theorem negative_width_reverses_energy_order :
    (0 : ℝ) ≤ 3 / 2 ∧ (3 / 2 : ℝ) < 2 ∧
    calculateTunnelingProbability ⟨Real.sqrt, Real.exp⟩ (withParameters (0 : ℝ) 2 (-1)) =
      Real.exp (2 / 5) ∧
    calculateTunnelingProbability ⟨Real.sqrt, Real.exp⟩ (withParameters (3 / 2 : ℝ) 2 (-1)) =
      Real.exp (1 / 5) ∧
    ¬ (calculateTunnelingProbability ⟨Real.sqrt, Real.exp⟩ (withParameters (0 : ℝ) 2 (-1)) ≤
      calculateTunnelingProbability ⟨Real.sqrt, Real.exp⟩ (withParameters (3 / 2 : ℝ) 2 (-1))) := by
  have h4 : Real.sqrt 4 = 2 := by
    rw [show (4 : ℝ) = 2 ^ 2 by norm_num]
    exact Real.sqrt_sq (by norm_num)
  have h0 : calculateTunnelingProbability ⟨Real.sqrt, Real.exp⟩ (withParameters (0 : ℝ) 2 (-1)) =
      Real.exp (2 / 5) := by
    rw [calculateTunnelingProbability_of_lt _ _
      (show (withParameters (0 : ℝ) 2 (-1)).params.particleEnergy <
        (withParameters (0 : ℝ) 2 (-1)).params.barrierHeight by
          show (0 : ℝ) < 2
          norm_num)]
    show Real.exp (-2 * (Real.sqrt (2 * (2 - 0)) / 10) * (-1)) = _
    rw [show (2 : ℝ) * (2 - 0) = 4 by norm_num, h4]
    norm_num
  have h1 : calculateTunnelingProbability ⟨Real.sqrt, Real.exp⟩
      (withParameters (3 / 2 : ℝ) 2 (-1)) = Real.exp (1 / 5) := by
    rw [calculateTunnelingProbability_of_lt _ _
      (show (withParameters (3 / 2 : ℝ) 2 (-1)).params.particleEnergy <
        (withParameters (3 / 2 : ℝ) 2 (-1)).params.barrierHeight by
          show (3 / 2 : ℝ) < 2
          norm_num)]
    show Real.exp (-2 * (Real.sqrt (2 * (2 - 3 / 2)) / 10) * (-1)) = _
    rw [show (2 : ℝ) * (2 - 3 / 2) = 1 by norm_num, Real.sqrt_one]
    norm_num
  refine ⟨by norm_num, by norm_num, h0, h1, ?_⟩
  rw [h0, h1, not_le]
  exact Real.exp_lt_exp.mpr (by norm_num)

/-- C4, amended: for a barrier width `w ≥ 0` held fixed, and energies
`E1 ≤ E2 < V`, `p(E1, V, w) ≤ p(E2, V, w)` over the reals: below the barrier the
probability is non-decreasing in the particle energy. -/
theorem probability_monotone_in_energy (this1 this2 : QuantumTunnelingSimulation ℝ)
    (hV : this1.params.barrierHeight = this2.params.barrierHeight)
    (hw : this1.params.barrierWidth = this2.params.barrierWidth)
    (hw0 : 0 ≤ this1.params.barrierWidth)
    (hE : this1.params.particleEnergy ≤ this2.params.particleEnergy)
    (hlt : this2.params.particleEnergy < this2.params.barrierHeight) :
    calculateTunnelingProbability ⟨Real.sqrt, Real.exp⟩ this1 ≤
      calculateTunnelingProbability ⟨Real.sqrt, Real.exp⟩ this2 := by
  have hlt1 : this1.params.particleEnergy < this1.params.barrierHeight := by
    rw [hV]
    exact lt_of_le_of_lt hE hlt
  rw [calculateTunnelingProbability_of_lt _ this1 hlt1,
    calculateTunnelingProbability_of_lt _ this2 hlt, ← hV, ← hw]
  show Real.exp _ ≤ Real.exp _
  apply Real.exp_le_exp.mpr
  have hs : Real.sqrt (2 * (this1.params.barrierHeight - this2.params.particleEnergy)) ≤
      Real.sqrt (2 * (this1.params.barrierHeight - this1.params.particleEnergy)) :=
    Real.sqrt_le_sqrt (by linarith)
  nlinarith

/-- Energies `50 ≤ 60 < 70` at `V = 70, w = 20`. -/
theorem probability_monotone_in_energy_witness :
    (0 : ℝ) ≤ 20 ∧ (50 : ℝ) ≤ 60 ∧ (60 : ℝ) < 70 ∧
    calculateTunnelingProbability ⟨Real.sqrt, Real.exp⟩ (withParameters (50 : ℝ) 70 20) ≤
      calculateTunnelingProbability ⟨Real.sqrt, Real.exp⟩ (withParameters (60 : ℝ) 70 20) :=
  ⟨by norm_num, by norm_num, by norm_num,
   probability_monotone_in_energy (withParameters (50 : ℝ) 70 20) (withParameters (60 : ℝ) 70 20)
     rfl rfl (show (0 : ℝ) ≤ 20 by norm_num) (show (50 : ℝ) ≤ 60 by norm_num)
     (show (60 : ℝ) < 70 by norm_num)⟩

/-- C5: for energy, barrier height and barrier width in `[0, 100]`,
`calculateTunnelingProbability` over the reals returns `p` with `0 ≤ p ≤ 1`,
and `0 < p`. -/
theorem probability_in_unit_interval (this : QuantumTunnelingSimulation ℝ)
    (_hE : 0 ≤ this.params.particleEnergy ∧ this.params.particleEnergy ≤ 100)
    (_hV : 0 ≤ this.params.barrierHeight ∧ this.params.barrierHeight ≤ 100)
    (hw : 0 ≤ this.params.barrierWidth ∧ this.params.barrierWidth ≤ 100) :
    0 ≤ calculateTunnelingProbability ⟨Real.sqrt, Real.exp⟩ this ∧
    calculateTunnelingProbability ⟨Real.sqrt, Real.exp⟩ this ≤ 1 ∧
    0 < calculateTunnelingProbability ⟨Real.sqrt, Real.exp⟩ this := by
  have key : 0 < calculateTunnelingProbability ⟨Real.sqrt, Real.exp⟩ this ∧
      calculateTunnelingProbability ⟨Real.sqrt, Real.exp⟩ this ≤ 1 := by
    rcases le_or_lt this.params.barrierHeight this.params.particleEnergy with h | h
    · rw [calculateTunnelingProbability_of_ge _ this h]
      norm_num
    · rw [calculateTunnelingProbability_of_lt _ this h]
      show 0 < Real.exp _ ∧ Real.exp _ ≤ 1
      refine ⟨Real.exp_pos _, Real.exp_le_one_iff.mpr ?_⟩
      have hk := kappa_nonneg (2 * (this.params.barrierHeight - this.params.particleEnergy))
      nlinarith [hw.1]
  exact ⟨key.1.le, key.2, key.1⟩

/-- The default parameters `E = 50, V = 70, w = 20` lie in the domain. -/
theorem probability_in_unit_interval_witness :
    ((0 : ℝ) ≤ 50 ∧ (50 : ℝ) ≤ 100) ∧ ((0 : ℝ) ≤ 70 ∧ (70 : ℝ) ≤ 100) ∧
    ((0 : ℝ) ≤ 20 ∧ (20 : ℝ) ≤ 100) ∧
    0 ≤ calculateTunnelingProbability ⟨Real.sqrt, Real.exp⟩ (withParameters (50 : ℝ) 70 20) ∧
    calculateTunnelingProbability ⟨Real.sqrt, Real.exp⟩ (withParameters (50 : ℝ) 70 20) ≤ 1 :=
  ⟨by norm_num, by norm_num, by norm_num,
   (probability_in_unit_interval (withParameters (50 : ℝ) 70 20)
     (show (0 : ℝ) ≤ 50 ∧ (50 : ℝ) ≤ 100 by norm_num)
     (show (0 : ℝ) ≤ 70 ∧ (70 : ℝ) ≤ 100 by norm_num)
     (show (0 : ℝ) ≤ 20 ∧ (20 : ℝ) ≤ 100 by norm_num)).1,
   (probability_in_unit_interval (withParameters (50 : ℝ) 70 20)
     (show (0 : ℝ) ≤ 50 ∧ (50 : ℝ) ≤ 100 by norm_num)
     (show (0 : ℝ) ≤ 70 ∧ (70 : ℝ) ≤ 100 by norm_num)
     (show (0 : ℝ) ≤ 20 ∧ (20 : ℝ) ≤ 100 by norm_num)).2.1⟩

end TunnelVision
